import Mathlib

/-!
Verification of the aiorgwadmin radosgw admin client (aiorgwadmin/rgw.py).

The development shallowly embeds the response decoder `_load_request`, the
error-classification table, and the admin operation builders (request-string
assembly) of `RGWAdmin`, together with executable models of the Python
standard-library pieces they call (`json` parsing, `urllib.parse.quote`,
`str` rendering of values).
-/

/-- JSON values as produced by Python's `json` module: `null`, booleans,
(integer) numbers, strings, arrays and objects (assoc lists in insertion
order, duplicate keys resolved last-wins as Python dicts do). -/
inductive Json where
  | null : Json
  | bool (b : Bool) : Json
  | num (n : Int) : Json
  | str (s : String) : Json
  | arr (xs : List Json) : Json
  | obj (kvs : List (String × Json)) : Json

/-- First-match association lookup on a decoded JSON object, the model of a
Python dict lookup (the value builder below keeps keys unique). -/
def lookupJ : List (String × Json) → String → Option Json
  | [], _ => none
  | (k, v) :: t, key => if k = key then some v else lookupJ t key

/-- Insertion into a decoded object: Python dicts keep the first position of
a key and overwrite its value on re-insertion. -/
def objInsert : List (String × Json) → String → Json → List (String × Json)
  | [], k, v => [(k, v)]
  | (k0, v0) :: t, k, v =>
    if k0 = k then (k0, v) :: t else (k0, v0) :: objInsert t k v

/-- Whitespace skipping as in the JSON grammar. -/
def skipWs : List Char → List Char
  | [] => []
  | c :: cs =>
    if c = ' ' ∨ c = '\t' ∨ c = '\n' ∨ c = '\r' then skipWs cs else c :: cs

/-- Parse the body of a JSON string literal (after the opening quote),
supporting the basic escapes; returns the string and the rest. -/
def parseStrBody : Nat → List Char → Except String (String × List Char)
  | 0, _ => .error "Unterminated string"
  | _ + 1, [] => .error "Unterminated string"
  | fuel + 1, c :: cs =>
    if c = '"' then .ok ("", cs)
    else if c = '\\' then
      match cs with
      | [] => .error "Unterminated string"
      | e :: cs2 =>
        let ec : Except String Char :=
          if e = '"' then .ok '"'
          else if e = '\\' then .ok '\\'
          else if e = '/' then .ok '/'
          else if e = 'n' then .ok '\n'
          else if e = 't' then .ok '\t'
          else if e = 'r' then .ok '\r'
          else .error "Invalid escape"
        match ec with
        | .error m => .error m
        | .ok d =>
          match parseStrBody fuel cs2 with
          | .error m => .error m
          | .ok (s, rest) => .ok (String.singleton d ++ s, rest)
    else
      match parseStrBody fuel cs with
      | .error m => .error m
      | .ok (s, rest) => .ok (String.singleton c ++ s, rest)

/-- Parse a run of decimal digits. -/
def parseDigits : List Char → Option (Nat × List Char)
  | cs =>
    let ds := cs.takeWhile Char.isDigit
    let rest := cs.dropWhile Char.isDigit
    if ds.isEmpty then none
    else some (ds.foldl (fun a c => a * 10 + (c.toNat - '0'.toNat)) 0, rest)

mutual
/-- Recursive-descent JSON value parsing (integer numbers only; sufficient
for the error payloads this client decodes). Fuel bounds the recursion. -/
def parseVal : Nat → List Char → Except String (Json × List Char)
  | 0, _ => .error "Out of fuel"
  | fuel + 1, cs =>
    match skipWs cs with
    | [] => .error "Expecting value"
    | c :: cs1 =>
      if c = '"' then
        match parseStrBody (fuel + 1) cs1 with
        | .error m => .error m
        | .ok (s, rest) => .ok (.str s, rest)
      else if c = '\x7b' then
        match skipWs cs1 with
        | '\x7d' :: cs2 => .ok (.obj [], cs2)
        | cs2 => parseObjBody fuel cs2 []
      else if c = '[' then
        match skipWs cs1 with
        | ']' :: cs2 => .ok (.arr [], cs2)
        | cs2 => parseArrBody fuel cs2 []
      else if c = '-' then
        match parseDigits cs1 with
        | none => .error "Expecting value"
        | some (n, rest) => .ok (.num (-(n : Int)), rest)
      else if c.isDigit then
        match parseDigits (c :: cs1) with
        | none => .error "Expecting value"
        | some (n, rest) => .ok (.num (n : Int), rest)
      else if (c :: cs1).take 4 = ['t', 'r', 'u', 'e'] then
        .ok (.bool true, (c :: cs1).drop 4)
      else if (c :: cs1).take 5 = ['f', 'a', 'l', 's', 'e'] then
        .ok (.bool false, (c :: cs1).drop 5)
      else if (c :: cs1).take 4 = ['n', 'u', 'l', 'l'] then
        .ok (.null, (c :: cs1).drop 4)
      else .error "Expecting value"

/-- Object members: positioned at the start of a `"key": value` member
(after the opening brace or a separating comma); accumulates with
last-wins insertion as Python dicts do. -/
def parseObjBody : Nat → List Char → List (String × Json) →
    Except String (Json × List Char)
  | 0, _, _ => .error "Out of fuel"
  | fuel + 1, cs, acc =>
    match skipWs cs with
    | '"' :: cs1 =>
      match parseStrBody (fuel + 1) cs1 with
      | .error m => .error m
      | .ok (k, rest1) =>
        match skipWs rest1 with
        | ':' :: rest2 =>
          match parseVal fuel rest2 with
          | .error m => .error m
          | .ok (v, rest3) =>
            let acc2 := objInsert acc k v
            match skipWs rest3 with
            | ',' :: rest4 => parseObjBody fuel rest4 acc2
            | '\x7d' :: rest4 => .ok (.obj acc2, rest4)
            | _ => .error "Expecting comma delimiter"
        | _ => .error "Expecting colon delimiter"
    | _ => .error "Expecting property name"

/-- Array elements: positioned at the start of an element (after the
opening bracket or a separating comma). -/
def parseArrBody : Nat → List Char → List Json →
    Except String (Json × List Char)
  | 0, _, _ => .error "Out of fuel"
  | fuel + 1, cs, acc =>
    match parseVal fuel cs with
    | .error m => .error m
    | .ok (v, rest1) =>
      match skipWs rest1 with
      | ',' :: rest2 => parseArrBody fuel rest2 (acc ++ [v])
      | ']' :: rest2 => .ok (.arr (acc ++ [v]), rest2)
      | _ => .error "Expecting comma delimiter"
end

/-- `json.load` / `json.loads`: parse a complete document, rejecting
trailing garbage (Python raises "Extra data"). -/
def parseJson (s : String) : Except String Json :=
  match parseVal (s.length + 1) s.toList with
  | .error m => .error m
  | .ok (v, rest) =>
    if (skipWs rest).isEmpty then .ok v else .error "Extra data"


mutual
/-- Python `repr()` of a decoded JSON value: `True`/`False`/`None` use
Python capitalization, strings and containers use single quotes. -/
def pyRepr : Json → String
  | .null => "None"
  | .bool true => "True"
  | .bool false => "False"
  | .num n => toString n
  | .str s => "\x27" ++ s ++ "\x27"
  | .arr xs => "[" ++ pyReprArr xs ++ "]"
  | .obj kvs => "\x7b" ++ pyReprObj kvs ++ "\x7d"

/-- Comma-separated `repr`s of list elements. -/
def pyReprArr : List Json → String
  | [] => ""
  | [x] => pyRepr x
  | x :: y :: t => pyRepr x ++ ", " ++ pyReprArr (y :: t)

/-- Comma-separated `'key': repr(value)` renderings of dict items. -/
def pyReprObj : List (String × Json) → String
  | [] => ""
  | [(k, v)] => "\x27" ++ k ++ "\x27: " ++ pyRepr v
  | (k, v) :: kv :: t =>
    "\x27" ++ k ++ "\x27: " ++ pyRepr v ++ ", " ++ pyReprObj (kv :: t)
end

/-- Python `str()`: identical to `repr` except on strings, which render
without quotes. -/
def pyStr : Json → String
  | .str s => s
  | v => pyRepr v

/-- The exception classes iterated by `_load_request`'s classification loop
(rgw.py lines 145-152), in the source order of that list; `excName` gives
each class's `__name__`, which the loop compares against the decoded code. -/
inductive ExcKind where
  | AccessDenied | UserExists | InvalidAccessKey | InvalidKeyType
  | InvalidSecretKey | KeyExists | EmailExists | SubuserExists
  | InvalidAccess | InvalidArgument | IndexRepairFailed | BucketNotEmpty
  | ObjectRemovalFailed | BucketUnlinkFailed | BucketLinkFailed
  | NoSuchObject | InvalidCap | NoSuchCap | NoSuchUser | NoSuchBucket
  | NoSuchKey | IncompleteBody | BucketAlreadyExists | InternalError
deriving DecidableEq

/-- `__name__` of each exception class in the classification table. -/
def excName : ExcKind → String
  | .AccessDenied => "AccessDenied"
  | .UserExists => "UserExists"
  | .InvalidAccessKey => "InvalidAccessKey"
  | .InvalidKeyType => "InvalidKeyType"
  | .InvalidSecretKey => "InvalidSecretKey"
  | .KeyExists => "KeyExists"
  | .EmailExists => "EmailExists"
  | .SubuserExists => "SubuserExists"
  | .InvalidAccess => "InvalidAccess"
  | .InvalidArgument => "InvalidArgument"
  | .IndexRepairFailed => "IndexRepairFailed"
  | .BucketNotEmpty => "BucketNotEmpty"
  | .ObjectRemovalFailed => "ObjectRemovalFailed"
  | .BucketUnlinkFailed => "BucketUnlinkFailed"
  | .BucketLinkFailed => "BucketLinkFailed"
  | .NoSuchObject => "NoSuchObject"
  | .InvalidCap => "InvalidCap"
  | .NoSuchCap => "NoSuchCap"
  | .NoSuchUser => "NoSuchUser"
  | .NoSuchBucket => "NoSuchBucket"
  | .NoSuchKey => "NoSuchKey"
  | .IncompleteBody => "IncompleteBody"
  | .BucketAlreadyExists => "BucketAlreadyExists"
  | .InternalError => "InternalError"

/-- The ordered list of exception classes exactly as written in the `for e
in [...]` loop of `_load_request` (rgw.py lines 145-152). -/
def classList : List ExcKind :=
  [.AccessDenied, .UserExists, .InvalidAccessKey,
   .InvalidKeyType, .InvalidSecretKey, .KeyExists, .EmailExists,
   .SubuserExists, .InvalidAccess, .InvalidArgument,
   .IndexRepairFailed, .BucketNotEmpty, .ObjectRemovalFailed,
   .BucketUnlinkFailed, .BucketLinkFailed, .NoSuchObject,
   .InvalidCap, .NoSuchCap, .NoSuchUser, .NoSuchBucket,
   .NoSuchKey, .IncompleteBody, .BucketAlreadyExists,
   .InternalError]

/-- Modelled from the spec: the typed error taxonomy of
`aiorgwadmin/exceptions.py` (the module is not under src/; rgw.py imports
these classes at lines 17-26). Per spec §7 it is a flat closed set: one
subclass of `RGWAdminException` per server code in the table (`table`,
carrying the raw descriptor `j` passed as `e(j)`), the base
`RGWAdminException(code, raw=j)` for unlisted codes (`admin`), `ServerDown`
(raised as `ServerDown(None)`), and `InvalidQuotaType` (raised bare by the
quota operations). -/
inductive RGWError where
  | table (k : ExcKind) (raw : Json)
  | admin (code : String) (raw : Json)
  | serverDown (raw : Option Json)
  | invalidQuotaType

/-- Everything a call into the embedded code can raise: a typed error from
the taxonomy, or one of the raw Python exceptions that the source can leak
(`json` decode errors escaping the header-fallback `json.load`,
`AttributeError` from `.get` on a non-dict payload, `ValueError` from
`get_user`'s argument check, and the bare `Exception` of
`_request_metadata`'s metadata-type check). -/
inductive PyError where
  | typed (e : RGWError)
  | jsonDecodeError (msg : String)
  | attributeError
  | valueError (msg : String)
  | exception (msg : String)

/-- The classification dispatch of `_load_request` (rgw.py lines 145-156):
scan the class list for the first class whose `__name__` equals `code` and
raise `e(j)`; fall through to `RGWAdminException(code, raw=j)`. -/
def classifyCode (code : String) (j : Json) : RGWError :=
  match classList.find? (fun e => code == excName e) with
  | some e => .table e j
  | none => .admin code j

/-- A raw HTTP response as `_load_request` sees it: `status`, the headers
in iteration order, and the result of `await r.json(content_type=None)` —
`some v` when the body parses as JSON to `v` (`v` may be `Json.null` for a
literal `null` body, which is Python `None`), `none` when parsing raises
`ValueError`. -/
structure Response where
  status : Nat
  headers : List (String × String)
  body : Option Json

/-- A parsed JSON `null` is Python `None`; the `j is not None` tests of
`_load_request` see it as absent. -/
def pyOpt : Json → Option Json
  | .null => none
  | v => some v

/-- Python `c in s` character membership. -/
def strHasChar (s : String) (c : Char) : Bool :=
  s.toList.contains c

/-- The header scan of `_load_request` (rgw.py lines 129-133): the first
header whose key contains an open brace, in iteration order. -/
def findBraceHeader : List (String × String) → Option (String × String)
  | [] => none
  | (k, v) :: t =>
    if strHasChar k '\x7b' then some (k, v) else findBraceHeader t

/-- Python `s.split('\x7d')[0]`: the prefix before the first close brace
(the whole string when no close brace occurs). -/
def splitBrace0 (s : String) : String :=
  String.mk (s.toList.takeWhile (fun c => c ≠ '\x7d'))

/-- The fragment reconstruction of rgw.py line 131:
`":".join([k, v]).split('\x7d')[0] + '\x7d'`. -/
def mkFragment (k v : String) : String :=
  splitBrace0 (k ++ ":" ++ v) ++ "\x7d"

/-- The try/except prologue of `_load_request` (rgw.py lines 116-133):
the payload `j` after body parsing with header fallback. An `.error`
models the `json.load` of the reconstructed fragment raising (an uncaught
`ValueError` escaping the `except ValueError` handler). -/
def recoverJ (r : Response) : Except String (Option Json) :=
  match r.body with
  | some v => .ok (pyOpt v)
  | none =>
    match findBraceHeader r.headers with
    | none => .ok none
    | some (k, v) =>
      match parseJson (mkFragment k v) with
      | .ok jv => .ok (pyOpt jv)
      | .error m => .error m

/-- `str(j.get('Code', 'InternalError'))` (rgw.py line 141): defined for a
dict payload; any other payload type raises `AttributeError`. -/
def jGetCode : Json → Except PyError String
  | .obj kvs => .ok (pyStr ((lookupJ kvs "Code").getD (.str "InternalError")))
  | _ => .error .attributeError

/-- `_load_request` (rgw.py lines 113-156): body parse with header
fallback, then status dispatch — 200 returns the payload, 204 returns
`None`, anything else classifies the recovered descriptor or raises
`ServerDown(None)` when none was recovered. -/
def _load_request (r : Response) : Except PyError (Option Json) :=
  match recoverJ r with
  | .error m => .error (.jsonDecodeError m)
  | .ok j =>
    if r.status = 200 then .ok j
    else if r.status = 204 then .ok none
    else
      match j with
      | none => .error (.typed (.serverDown none))
      | some jv =>
        match jGetCode jv with
        | .error e => .error e
        | .ok code => .error (.typed (classifyCode code jv))

/-- Python `'%s' % b` for a boolean: `str(True) = "True"`,
`str(False) = "False"` (capitalized). -/
def pyStrB : Bool → String
  | true => "True"
  | false => "False"

/-- Characters `urllib.parse.quote` leaves unescaped with its default
`safe='/'`: ASCII letters, digits, `_.-~` and `/`. -/
def quoteSafe (c : Char) : Bool :=
  (c ≥ 'A' && c ≤ 'Z') || (c ≥ 'a' && c ≤ 'z') || (c ≥ '0' && c ≤ '9') ||
  c = '_' || c = '.' || c = '-' || c = '~' || c = '/'

/-- Uppercase hexadecimal digit. -/
def hexDigit (n : Nat) : Char :=
  if n < 10 then Char.ofNat ('0'.toNat + n) else Char.ofNat ('A'.toNat + (n - 10))

/-- `%XX` escape of one byte. -/
def percentByte (b : Nat) : String :=
  "%" ++ String.singleton (hexDigit (b / 16)) ++ String.singleton (hexDigit (b % 16))

/-- UTF-8 bytes of a code point. -/
def utf8Bytes (n : Nat) : List Nat :=
  if n < 0x80 then [n]
  else if n < 0x800 then [0xC0 + n / 0x40, 0x80 + n % 0x40]
  else if n < 0x10000 then
    [0xE0 + n / 0x1000, 0x80 + (n / 0x40) % 0x40, 0x80 + n % 0x40]
  else
    [0xF0 + n / 0x40000, 0x80 + (n / 0x1000) % 0x40,
     0x80 + (n / 0x40) % 0x40, 0x80 + n % 0x40]

/-- `urllib.parse.quote(s)` with the default `safe='/'`: percent-encode the
UTF-8 bytes of every character outside the safe set. -/
def pyQuote (s : String) : String :=
  s.toList.foldl
    (fun acc c =>
      acc ++ (if quoteSafe c then String.singleton c
              else String.join ((utf8Bytes c.toNat).map percentByte))) ""

/-- Substring test on strings (used to state what a dispatched request
string does and does not contain). -/
def startsWithL : List Char → List Char → Bool
  | _, [] => true
  | [], _ :: _ => false
  | a :: as, b :: bs => a = b && startsWithL as bs

/-- `pat` occurs contiguously inside `hay`. -/
def containsSub : List Char → List Char → Bool
  | [], pat => pat.isEmpty
  | h :: t, pat => startsWithL (h :: t) pat || containsSub t pat

/-- String-level substring test. -/
def strContainsSub (hay pat : String) : Bool :=
  containsSub hay.toList pat.toList

/-- The `RGWAdmin` client state set up by `__init__` (rgw.py lines 47-74):
the credentials and connection configuration are stored unconditionally —
the constructor performs no validation of any field. -/
structure RGWAdmin where
  access_key : String
  secret_key : String
  server : String
  admin : String
  response : String
  ca_bundle : Option String
  protocol : String
  verify : Bool
  timeout : Option Int

/-- `RGWAdmin.__init__` (rgw.py lines 47-74): store every argument, derive
the protocol from `secure`, and construct the `S3Auth` signer from the
(unchecked) keys. No conditional raises anywhere. -/
def initRGWAdmin (access_key secret_key server : String)
    (admin response : String) (ca_bundle : Option String) (secure : Bool)
    (verify : Bool) (timeout : Option Int) : RGWAdmin :=
  { access_key, secret_key, server, admin, response, ca_bundle,
    protocol := if secure then "https" else "http", verify, timeout }

/-- `get_base_url` (rgw.py lines 109-111). -/
def get_base_url (c : RGWAdmin) : String :=
  c.protocol ++ "://" ++ c.server

/-- The dispatch parameters that `request` (rgw.py lines 158-197) hands to
the aiohttp session after header preparation. `signedWith` records the
credentials the external `awsauth.S3Auth` signer used for the
`Authorization` header: that library stores the keys at construction and
signs unconditionally in `__call__` (HMAC-SHA1 over the canonical request,
`Authorization: AWS <access_key>:<signature>`); it performs no validation
and raises nothing for empty keys, so the signature bytes are abstracted
here as the pair of credentials that determine them. -/
structure RequestParams where
  method : String
  url : String
  signedWith : String × String
  contentLength : Option Nat
  timeout : Option Int

/-- The pre-dispatch part of `request` (rgw.py lines 158-185): assemble the
URL from the base URL and the request string, prepare the signed headers
via `Request(method, url, headers=headers, auth=self._auth).prepare()`,
set `Content-Length` when a body is given, and build the dispatch
parameters. The path is total: no code on it raises. -/
def buildRequest (c : RGWAdmin) (method request : String)
    (data : Option String) : RequestParams :=
  { method
    url := get_base_url c ++ request
    signedWith := (c.access_key, c.secret_key)
    contentLength := data.map String.length
    timeout := c.timeout }

/-- A request an admin operation builder hands to the core `request`
primitive: the HTTP method, the request string (path plus query), the
extra headers the builder passes, and the optional body. -/
structure RequestSpec where
  method : String
  path : String
  headers : List (String × String)
  data : Option String

/-- `metadata_types` (rgw.py line 45). -/
def metadata_types : List String := ["user", "bucket", "bucket.instance"]

/-- `'&'.join(['%s=%s' % (k, v) for k, v in params.items()])`
(rgw.py line 206); values are already rendered to strings. -/
def joinParams (params : List (String × String)) : String :=
  String.intercalate "&" (params.map (fun kv => kv.1 ++ "=" ++ kv.2))

/-- `_request_metadata` (rgw.py lines 199-213): reject a metadata type
outside `metadata_types` with a bare `Exception("Bad metadata_type")`
before building anything, else assemble
`/<admin>/metadata/<metadata_type>?<params>`. -/
def _request_metadata (admin : String) (method metadata_type : String)
    (params : List (String × String)) (headers : List (String × String))
    (data : Option String) : Except PyError RequestSpec :=
  if metadata_type ∈ metadata_types then
    .ok { method
          path := "/" ++ admin ++ "/metadata/" ++ metadata_type ++ "?" ++
                  joinParams params
          headers, data }
  else .error (.exception "Bad metadata_type")

/-- `get_metadata` (rgw.py lines 215-230): params are inserted in the order
`format`, `key`, `marker`, `max-entries`; only `marker` is passed through
`urllib.parse.quote` — `key` is inserted verbatim. -/
def get_metadata (admin response : String) (metadata_type : String)
    (key : Option String) (max_entries : Option Int)
    (marker : Option String) : Except PyError RequestSpec :=
  let params : List (String × String) :=
    [("format", response)]
    ++ (match key with | some k => [("key", k)] | none => [])
    ++ (match marker with | some m => [("marker", pyQuote m)] | none => [])
    ++ (match max_entries with
        | some n => [("max-entries", toString n)] | none => [])
  _request_metadata admin "get" metadata_type params [] none

/-- `put_metadata` (rgw.py lines 232-238): only a `key` parameter, a JSON
content-type header and the body. -/
def put_metadata (admin : String) (metadata_type key json_string : String) :
    Except PyError RequestSpec :=
  _request_metadata admin "put" metadata_type [("key", key)]
    [("Content-Type", "application/json")] (some json_string)

/-- `delete_metadata` (rgw.py lines 243-248). -/
def delete_metadata (admin : String) (metadata_type key : String) :
    Except PyError RequestSpec :=
  _request_metadata admin "delete" metadata_type [("key", key)] [] none

/-- `lock_metadata` (rgw.py lines 250-261): params in insertion order
`lock`, `key`, `lock_id`, `length` (the length rendered via `int()`). -/
def lock_metadata (admin : String) (metadata_type key lock_id : String)
    (length : Int) : Except PyError RequestSpec :=
  _request_metadata admin "post" metadata_type
    [("lock", "lock"), ("key", key), ("lock_id", lock_id),
     ("length", toString length)] [] none

/-- `unlock_metadata` (rgw.py lines 263-273). -/
def unlock_metadata (admin : String) (metadata_type key lock_id : String) :
    Except PyError RequestSpec :=
  _request_metadata admin "post" metadata_type
    [("unlock", "unlock"), ("key", key), ("lock_id", lock_id)] [] none

/-- An optional `&name=value` query fragment (`parameters += '&name=%s' %
v` under `if v is not None`). -/
def optQ (name : String) : Option String → String
  | some v => "&" ++ name ++ "=" ++ v
  | none => ""

/-- An optional `&name=value` fragment for an integer-valued parameter. -/
def optQI (name : String) : Option Int → String
  | some n => "&" ++ name ++ "=" ++ toString n
  | none => ""

/-- `get_user` (rgw.py lines 275-286): supplying both `uid` and
`access_key` raises `ValueError` before the request string is built; the
`stats`/`sync` booleans are rendered by `'%s'` formatting. -/
def get_user (admin response : String) (uid access_key : Option String)
    (stats sync : Bool) : Except PyError RequestSpec :=
  if uid.isSome && access_key.isSome then
    .error (.valueError "Only one of uid and access_key is allowed")
  else
    .ok { method := "get"
          path := "/" ++ admin ++ "/user?format=" ++ response ++
                  optQ "uid" uid ++ optQ "access-key" access_key ++
                  "&stats=" ++ pyStrB stats ++ "&sync=" ++ pyStrB sync
          headers := [], data := none }

/-- `create_user` (rgw.py lines 291-310). -/
def create_user (admin response : String) (uid display_name : String)
    (email : Option String) (key_type : Option String)
    (access_key secret_key user_caps : Option String)
    (generate_key : Bool) (max_buckets : Option Int) (suspended : Bool) :
    RequestSpec :=
  { method := "put"
    path := "/" ++ admin ++ "/user?format=" ++ response ++ "&" ++
            ("uid=" ++ uid ++ "&display-name=" ++ display_name ++
             optQ "email" email ++ optQ "key-type" key_type ++
             optQ "access-key" access_key ++
             optQ "secret-key" secret_key ++
             optQ "user-caps" user_caps ++
             "&generate-key=" ++ pyStrB generate_key ++
             optQI "max-buckets" max_buckets ++
             "&suspended=" ++ pyStrB suspended)
    headers := [], data := none }

/-- `get_usage` (rgw.py lines 312-324). -/
def get_usage (admin response : String) (uid start end_ : Option String)
    (show_entries show_summary : Bool) : RequestSpec :=
  { method := "get"
    path := "/" ++ admin ++ "/usage?format=" ++ response ++
            optQ "uid" uid ++ optQ "start" start ++
            optQ "end" end_ ++
            "&show-entries=" ++ pyStrB show_entries ++
            "&show-summary=" ++ pyStrB show_summary
    headers := [], data := none }

/-- `trim_usage` (rgw.py lines 326-336). -/
def trim_usage (admin response : String) (uid start end_ : Option String)
    (remove_all : Bool) : RequestSpec :=
  { method := "delete"
    path := "/" ++ admin ++ "/usage?format=" ++ response ++
            optQ "uid" uid ++ optQ "start" start ++
            optQ "end" end_ ++ "&remove-all=" ++ pyStrB remove_all
    headers := [], data := none }

/-- `modify_user` (rgw.py lines 338-360); `suspended` is optional here and
rendered by `'%s'` when present. -/
def modify_user (admin response : String) (uid : String)
    (display_name email key_type access_key secret_key user_caps :
      Option String)
    (generate_key : Bool) (max_buckets : Option Int)
    (suspended : Option Bool) : RequestSpec :=
  { method := "post"
    path := "/" ++ admin ++ "/user?format=" ++ response ++ "&" ++
            ("uid=" ++ uid ++ optQ "display-name" display_name ++
             optQ "email" email ++ optQ "key-type" key_type ++
             optQ "access-key" access_key ++
             optQ "secret-key" secret_key ++
             optQ "user-caps" user_caps ++
             "&generate-key=" ++ pyStrB generate_key ++
             optQI "max-buckets" max_buckets ++
             optQ "suspended" (suspended.map pyStrB))
    headers := [], data := none }

/-- `get_quota` (rgw.py lines 362-367): a quota type outside
`['user', 'bucket']` raises `InvalidQuotaType`. -/
def get_quota (admin response : String) (uid quota_type : String) :
    Except PyError RequestSpec :=
  if quota_type ∈ ["user", "bucket"] then
    .ok { method := "get"
          path := "/" ++ admin ++ "/user?quota&format=" ++ response ++ "&" ++
                  ("uid=" ++ uid ++ "&quota-type=" ++ quota_type)
          headers := [], data := none }
  else .error (.typed .invalidQuotaType)

/-- `_quota` (rgw.py lines 376-385): the only place a boolean is lowercased
(`str(enabled).lower()`); sizes use `'%d'` formatting. -/
def _quota (max_size_kb max_objects : Option Int) (enabled : Option Bool) :
    String :=
  optQI "max-size-kb" max_size_kb ++ optQI "max-objects" max_objects ++
  (match enabled with
   | some b => "&enabled=" ++ (if b then "true" else "false")
   | none => "")

/-- `set_user_quota` (rgw.py lines 387-405). -/
def set_user_quota (admin response : String) (uid quota_type : String)
    (max_size_kb max_objects : Option Int) (enabled : Option Bool) :
    Except PyError RequestSpec :=
  if quota_type ∈ ["user", "bucket"] then
    .ok { method := "put"
          path := "/" ++ admin ++ "/user?quota&format=" ++ response ++ "&" ++
                  ("uid=" ++ uid ++ "&quota-type=" ++ quota_type ++
                   _quota max_size_kb max_objects enabled)
          headers := [], data := none }
  else .error (.typed .invalidQuotaType)

/-- `set_bucket_quota` (rgw.py lines 407-414). -/
def set_bucket_quota (admin response : String) (uid bucket : String)
    (max_size_kb max_objects : Option Int) (enabled : Option Bool) :
    RequestSpec :=
  { method := "put"
    path := "/" ++ admin ++ "/bucket?quota&format=" ++ response ++ "&" ++
            ("uid=" ++ uid ++ "&bucket=" ++ bucket ++
             _quota max_size_kb max_objects enabled)
    headers := [], data := none }

/-- `remove_user` (rgw.py lines 416-420). -/
def remove_user (admin response : String) (uid : String)
    (purge_data : Bool) : RequestSpec :=
  { method := "delete"
    path := "/" ++ admin ++ "/user?format=" ++ response ++ "&" ++
            ("uid=" ++ uid ++ "&purge-data=" ++ pyStrB purge_data)
    headers := [], data := none }

/-- `create_subuser` (rgw.py lines 422-437): the key pair is included only
when both keys are given; `key_type` only when it lowercases to
`s3`/`swift`. -/
def create_subuser (admin response : String) (uid : String)
    (subuser secret_key access_key key_type access : Option String)
    (generate_secret : Bool) : RequestSpec :=
  { method := "put"
    path := "/" ++ admin ++ "/user?subuser&format=" ++ response ++ "&" ++
            ("uid=" ++ uid ++ optQ "subuser" subuser ++
             (match secret_key, access_key with
              | some sk, some ak =>
                "&access-key=" ++ ak ++ "&secret-key=" ++ sk
              | _, _ => "") ++
             (match key_type with
              | some kt =>
                if kt.toLower ∈ ["s3", "swift"] then "&key-type=" ++ kt
                else ""
              | none => "") ++
             optQ "access" access ++
             "&generate-secret=" ++ pyStrB generate_secret)
    headers := [], data := none }

/-- `modify_subuser` (rgw.py lines 439-449). -/
def modify_subuser (admin response : String) (uid subuser : String)
    (secret : Option String) (key_type : String) (access : Option String)
    (generate_secret : Bool) : RequestSpec :=
  { method := "post"
    path := "/" ++ admin ++ "/user?subuser&format=" ++ response ++ "&" ++
            ("uid=" ++ uid ++ "&subuser=" ++ subuser ++
             optQ "secret" secret ++ "&key-type=" ++ key_type ++
             optQ "access" access ++
             "&generate-secret=" ++ pyStrB generate_secret)
    headers := [], data := none }

/-- `remove_subuser` (rgw.py lines 451-455). -/
def remove_subuser (admin response : String) (uid subuser : String)
    (purge_keys : Bool) : RequestSpec :=
  { method := "delete"
    path := "/" ++ admin ++ "/user?subuser&format=" ++ response ++ "&" ++
            ("uid=" ++ uid ++ "&subuser=" ++ subuser ++ "&purge-keys=" ++
             pyStrB purge_keys)
    headers := [], data := none }

/-- `create_key` (rgw.py lines 457-469). -/
def create_key (admin response : String) (uid : String)
    (subuser : Option String) (key_type : String)
    (access_key secret_key : Option String) (generate_key : Bool) :
    RequestSpec :=
  { method := "put"
    path := "/" ++ admin ++ "/user?key&format=" ++ response ++ "&" ++
            ("uid=" ++ uid ++ optQ "subuser" subuser ++
             "&key-type=" ++ key_type ++
             optQ "access-key" access_key ++
             optQ "secret-key" secret_key ++
             "&generate-key=" ++ pyStrB generate_key)
    headers := [], data := none }

/-- `remove_key` (rgw.py lines 471-480). -/
def remove_key (admin response : String) (access_key : String)
    (key_type uid subuser : Option String) : RequestSpec :=
  { method := "delete"
    path := "/" ++ admin ++ "/user?key&format=" ++ response ++ "&" ++
            ("access-key=" ++ access_key ++ optQ "key-type" key_type ++
             optQ "uid" uid ++ optQ "subuser" subuser)
    headers := [], data := none }

/-- `get_bucket` (rgw.py lines 486-494). -/
def get_bucket (admin response : String) (bucket uid : Option String)
    (stats : Bool) : RequestSpec :=
  { method := "get"
    path := "/" ++ admin ++ "/bucket?format=" ++ response ++
            optQ "bucket" bucket ++ optQ "uid" uid ++
            "&stats=" ++ pyStrB stats
    headers := [], data := none }

/-- `check_bucket_index` (rgw.py lines 496-501). -/
def check_bucket_index (admin response : String) (bucket : String)
    (check_objects fix : Bool) : RequestSpec :=
  { method := "get"
    path := "/" ++ admin ++ "/bucket?index&format=" ++ response ++ "&" ++
            ("bucket=" ++ bucket ++ "&check-objects=" ++
             pyStrB check_objects ++ "&fix=" ++ pyStrB fix)
    headers := [], data := none }

/-- `remove_bucket` (rgw.py lines 503-507). -/
def remove_bucket (admin response : String) (bucket : String)
    (purge_objects : Bool) : RequestSpec :=
  { method := "delete"
    path := "/" ++ admin ++ "/bucket?format=" ++ response ++ "&" ++
            ("bucket=" ++ bucket ++ "&purge-objects=" ++
             pyStrB purge_objects)
    headers := [], data := none }

/-- `unlink_bucket` (rgw.py lines 509-512). -/
def unlink_bucket (admin response : String) (bucket uid : String) :
    RequestSpec :=
  { method := "post"
    path := "/" ++ admin ++ "/bucket?format=" ++ response ++ "&" ++
            ("bucket=" ++ bucket ++ "&uid=" ++ uid)
    headers := [], data := none }

/-- `link_bucket` (rgw.py lines 514-520). -/
def link_bucket (admin response : String) (bucket bucket_id uid : String) :
    RequestSpec :=
  { method := "put"
    path := "/" ++ admin ++ "/bucket?format=" ++ response ++ "&" ++
            ("bucket=" ++ bucket ++ "&bucket-id=" ++ bucket_id ++
             "&uid=" ++ uid)
    headers := [], data := none }

/-- `remove_object` (rgw.py lines 522-525). -/
def remove_object (admin response : String) (bucket object_name : String) :
    RequestSpec :=
  { method := "delete"
    path := "/" ++ admin ++ "/bucket?object&format=" ++ response ++ "&" ++
            ("bucket=" ++ bucket ++ "&object=" ++ object_name)
    headers := [], data := none }

/-- `get_policy` (rgw.py lines 527-532). -/
def get_policy (admin response : String) (bucket : String)
    (object_name : Option String) : RequestSpec :=
  { method := "get"
    path := "/" ++ admin ++ "/bucket?policy&format=" ++ response ++ "&" ++
            ("bucket=" ++ bucket ++ optQ "object" object_name)
    headers := [], data := none }

/-- `add_capability` (rgw.py lines 534-537). -/
def add_capability (admin response : String) (uid user_caps : String) :
    RequestSpec :=
  { method := "put"
    path := "/" ++ admin ++ "/user?caps&format=" ++ response ++ "&" ++
            ("uid=" ++ uid ++ "&user-caps=" ++ user_caps)
    headers := [], data := none }

/-- `remove_capability` (rgw.py lines 539-542). -/
def remove_capability (admin response : String) (uid user_caps : String) :
    RequestSpec :=
  { method := "delete"
    path := "/" ++ admin ++ "/user?caps&format=" ++ response ++ "&" ++
            ("uid=" ++ uid ++ "&user-caps=" ++ user_caps)
    headers := [], data := none }

/-- The call produced a typed-taxonomy outcome: a success or a typed
error; raw Python exceptions (`json` decode errors, `AttributeError`) do
not count. -/
def isTypedOutcome : Except PyError (Option Json) → Bool
  | .ok _ => true
  | .error (.typed _) => true
  | .error _ => false

/-- The payload is a JSON object (a Python dict). -/
def isObjJ : Json → Bool
  | .obj _ => true
  | _ => false

/-- A builder call failed with a typed-taxonomy error. -/
def failedTyped : Except PyError RequestSpec → Bool
  | .error (.typed _) => true
  | _ => false

/-- C10: get_user raises ValueError exactly when both uid and access_key
are supplied; with at most one of them the request spec is produced. -/
theorem C10_get_user_exclusive_args (admin response : String)
    (uid access_key : Option String) (stats sync : Bool) :
    (uid.isSome → access_key.isSome →
      get_user admin response uid access_key stats sync =
        .error (.valueError "Only one of uid and access_key is allowed")) ∧
    (¬(uid.isSome ∧ access_key.isSome) →
      ∃ spec, get_user admin response uid access_key stats sync = .ok spec) := by
  constructor
  · intro hu ha
    unfold get_user
    rw [if_pos (by simp [hu, ha])]
  · intro h
    unfold get_user
    rw [if_neg (by simpa [and_comm] using h)]
    exact ⟨_, rfl⟩

/-- C10 witness: both supplied yields ValueError; only uid supplied yields
a request. -/
theorem C10_get_user_witness :
    get_user "admin" "json" (some "u") (some "ak") false false =
      .error (.valueError "Only one of uid and access_key is allowed") ∧
    ∃ spec, get_user "admin" "json" (some "u") none false false = .ok spec :=
  ⟨(C10_get_user_exclusive_args "admin" "json" (some "u") (some "ak")
      false false).1 rfl rfl,
   (C10_get_user_exclusive_args "admin" "json" (some "u") none
      false false).2 (by simp)⟩

/-- C5 counterexample: an invalid metadata type fails fast, but with the
bare `Exception("Bad metadata_type")` of `_request_metadata` — not with
the typed InvalidArgument error the claim names. -/
theorem C5_bad_metadata_type_cex :
    get_metadata "admin" "json" "bucketttt" none none none =
      .error (.exception "Bad metadata_type") ∧
    failedTyped (get_metadata "admin" "json" "bucketttt" none none none) =
      false :=
  ⟨rfl, rfl⟩

/-- C5 amended: every metadata operation with a metadata type outside
\x7buser, bucket, bucket.instance\x7d fails fast — before any request
spec is built — with the untyped `Exception("Bad metadata_type")`. -/
theorem C5_fail_fast_amended (admin response metadata_type : String)
    (key lock_id json_string : String) (max_entries : Option Int)
    (key2 marker : Option String) (length : Int)
    (h : metadata_type ∉ metadata_types) :
    get_metadata admin response metadata_type key2 max_entries marker =
      .error (.exception "Bad metadata_type") ∧
    put_metadata admin metadata_type key json_string =
      .error (.exception "Bad metadata_type") ∧
    delete_metadata admin metadata_type key =
      .error (.exception "Bad metadata_type") ∧
    lock_metadata admin metadata_type key lock_id length =
      .error (.exception "Bad metadata_type") ∧
    unlock_metadata admin metadata_type key lock_id =
      .error (.exception "Bad metadata_type") := by
  unfold get_metadata put_metadata delete_metadata lock_metadata
    unlock_metadata _request_metadata
  simp [h]

/-- C5 witness: the amended statement at the invalid type `"bucketttt"`. -/
theorem C5_fail_fast_witness :
    put_metadata "admin" "bucketttt" "k" "x" =
      .error (.exception "Bad metadata_type") :=
  (C5_fail_fast_amended "admin" "json" "bucketttt" "k" "l" "x" none none
    none 0 (by decide)).2.1

/-- C9 counterexample: a client constructed with empty access and secret
keys is accepted without validation, and the request pipeline produces a
signed dispatch (the `Authorization` header is computed from the stored
empty credentials) instead of failing with any signing error. -/
theorem C9_empty_keys_signed_cex :
    buildRequest
      (initRGWAdmin "" "" "ceph.example.com" "admin" "json" none true true
        none) "get" "/admin/user?format=json" none =
      { method := "get"
        url := "https://ceph.example.com/admin/user?format=json"
        signedWith := ("", "")
        contentLength := none
        timeout := none } :=
  rfl

/-- C9 amended: neither `__init__` nor the pre-dispatch part of `request`
validates the credentials; for every client — empty keys included — the
request is prepared and signed with exactly the stored key pair, and no
code path can raise an AuthSigningError (no such exception exists in the
codebase). -/
theorem C9_no_validation_amended (access_key secret_key server admin
    response : String) (ca_bundle : Option String) (secure verify : Bool)
    (timeout : Option Int) (method request : String) (data : Option String) :
    buildRequest
      (initRGWAdmin access_key secret_key server admin response ca_bundle
        secure verify timeout) method request data =
      { method
        url := (if secure then "https" else "http") ++ "://" ++ server ++
               request
        signedWith := (access_key, secret_key)
        contentLength := data.map String.length
        timeout := timeout } :=
  rfl

/-- C6 counterexample: a metadata key containing a space is inserted into
the dispatched query verbatim — `get_metadata` passes `key` through
unescaped, so `"default.345 -5"` appears with a literal space and the
percent-encoded form appears nowhere in the request string. -/
theorem C6_key_not_quoted_cex :
    get_metadata "admin" "json" "user" (some "default.345 -5") none none =
      .ok { method := "get"
            path := "/admin/metadata/user?format=json&key=default.345 -5"
            headers := [], data := none } ∧
    strContainsSub "/admin/metadata/user?format=json&key=default.345 -5"
      "default.345%20-5" = false :=
  ⟨rfl, rfl⟩

/-- C6 amended: only the `marker` parameter is percent-encoded (via
`urllib.parse.quote`, under which a space becomes `%20`); the `key`
parameter is inserted verbatim, spaces included. -/
theorem C6_marker_quoted_amended (admin response metadata_type k m : String)
    (hmt : metadata_type ∈ metadata_types) :
    get_metadata admin response metadata_type (some k) none (some m) =
      .ok { method := "get"
            path := "/" ++ admin ++ "/metadata/" ++ metadata_type ++ "?" ++
                    joinParams [("format", response), ("key", k),
                                ("marker", pyQuote m)]
            headers := [], data := none } ∧
    pyQuote "default.345 -5" = "default.345%20-5" ∧
    joinParams [("format", "json"), ("key", "default.345 -5")] =
      "format=json&key=default.345 -5" := by
  refine ⟨?_, rfl, rfl⟩
  unfold get_metadata _request_metadata
  rw [if_pos hmt]
  rfl

/-- C6 witness: the amended statement at concrete inputs, the marker
percent-encoded and the key verbatim. -/
theorem C6_marker_quoted_witness :
    get_metadata "admin" "json" "user" (some "a b") none
      (some "default.345 -5") =
      .ok { method := "get"
            path := "/" ++ "admin" ++ "/metadata/" ++ "user" ++ "?" ++
                    joinParams [("format", "json"), ("key", "a b"),
                                ("marker", pyQuote "default.345 -5")]
            headers := [], data := none } :=
  (C6_marker_quoted_amended "admin" "json" "user" "a b" "default.345 -5"
    (by decide)).1

/-- C7 counterexample: `get_user` renders its boolean parameters with
Python `str` capitalization — the dispatched query carries `stats=False`,
not the lowercase `stats=false` the claim requires. -/
theorem C7_capitalized_bool_cex :
    get_user "admin" "json" (some "alice") none false false =
      .ok { method := "get"
            path := "/admin/user?format=json&uid=alice&stats=False&sync=False"
            headers := [], data := none } ∧
    strContainsSub "/admin/user?format=json&uid=alice&stats=False&sync=False"
      "stats=false" = false ∧
    strContainsSub "/admin/user?format=json&uid=alice&stats=False&sync=False"
      "stats=False" = true :=
  ⟨rfl, rfl, rfl⟩

/-- C7 amended: the operation builders render boolean parameters through
Python string formatting, i.e. capitalized `True`/`False` (shown here for
`get_user`'s stats/sync and `create_user`'s generate-key/suspended); the
single exception is the quota helper `_quota`, which lowercases its
`enabled` flag to `true`/`false`. -/
theorem C7_bool_render_amended (admin response u uid dn : String)
    (stats sync generate_key suspended : Bool)
    (max_size_kb max_objects : Option Int) (enabled : Bool) :
    (∃ pre, get_user admin response (some u) none stats sync =
      .ok { method := "get"
            path := pre ++ "&stats=" ++ pyStrB stats ++ "&sync=" ++
                    pyStrB sync
            headers := [], data := none }) ∧
    (∃ pre mid1 mid2, create_user admin response uid dn none none none none
        none generate_key none suspended =
      { method := "put"
        path := pre ++ (mid1 ++ "&generate-key=" ++ pyStrB generate_key ++
                mid2 ++ "&suspended=" ++ pyStrB suspended)
        headers := [], data := none }) ∧
    _quota max_size_kb max_objects (some enabled) =
      optQI "max-size-kb" max_size_kb ++ optQI "max-objects" max_objects ++
      ("&enabled=" ++ (if enabled then "true" else "false")) ∧
    pyStrB true = "True" ∧ pyStrB false = "False" := by
  refine ⟨⟨_, rfl⟩, ⟨_, _, _, rfl⟩, rfl, rfl, rfl⟩

/-- C8 counterexample: the request string `put_metadata` hands to the core
request primitive carries no `format=` query parameter at all. -/
theorem C8_put_metadata_no_format_cex :
    put_metadata "admin" "user" "k" "\x7b\x7d" =
      .ok { method := "put"
            path := "/admin/metadata/user?key=k"
            headers := [("Content-Type", "application/json")]
            data := some "\x7b\x7d" } ∧
    strContainsSub "/admin/metadata/user?key=k" "format=" = false :=
  ⟨rfl, rfl⟩

/-- C1: when the body is unparseable, the header scan finds a brace-keyed
header whose reconstructed `key:value` fragment (truncated at the first
close brace) parses as the object with Code `"NoSuchKey"`, and the status
is neither 200 nor 204, `_load_request` raises the typed NoSuchKey error
carrying that recovered descriptor. -/
theorem C1_header_fallback_nosuchkey (r : Response) (k v : String)
    (hbody : r.body = none)
    (hfind : findBraceHeader r.headers = some (k, v))
    (hparse : parseJson (mkFragment k v) =
      .ok (.obj [("Code", Json.str "NoSuchKey")]))
    (h200 : r.status ≠ 200) (h204 : r.status ≠ 204) :
    _load_request r =
      .error (.typed (.table .NoSuchKey
        (.obj [("Code", Json.str "NoSuchKey")]))) := by
  have hrec : recoverJ r =
      .ok (some (.obj [("Code", Json.str "NoSuchKey")])) := by
    simp only [recoverJ, hbody, hfind, hparse, pyOpt]
  simp only [_load_request, hrec]
  rw [if_neg h200, if_neg h204]
  rfl

/-- C1 witness: a 404 response with unparseable body and the error JSON
smuggled into a header (key contains the opening of the JSON object, the
value its remainder plus trailing garbage cut at the close brace). -/
theorem C1_header_fallback_witness :
    _load_request
      { status := 404
        headers := [("\x7b\"Code\"", "\"NoSuchKey\"\x7dgarbage")]
        body := none } =
      .error (.typed (.table .NoSuchKey
        (.obj [("Code", Json.str "NoSuchKey")]))) :=
  C1_header_fallback_nosuchkey _ "\x7b\"Code\"" "\"NoSuchKey\"\x7dgarbage"
    rfl (by decide) rfl (by decide) (by decide)

/-- C2: classification is exact string match against the table — a code
equal to some listed class name classifies to exactly that class (carrying
the descriptor), a code not among the listed names classifies to the
generic `RGWAdminException` carrying the raw code and descriptor, and a
non-success response whose dict descriptor carries a code always raises
the classified error (never succeeds silently). -/
theorem C2_classify_exact_table (code : String) (j : Json) (st : Nat)
    (hs : List (String × String)) :
    (∀ e : ExcKind, code = excName e → classifyCode code j = .table e j) ∧
    (code ∉ classList.map excName → classifyCode code j = .admin code j) ∧
    (st ≠ 200 → st ≠ 204 →
      _load_request { status := st, headers := hs,
                      body := some (.obj [("Code", Json.str code)]) } =
        .error (.typed (classifyCode code
          (.obj [("Code", Json.str code)])))) := by
  refine ⟨?_, ?_, ?_⟩
  · intro e h
    cases e <;> (subst h; rfl)
  · intro h
    unfold classifyCode
    have hfind : classList.find? (fun e => code == excName e) = none := by
      rw [List.find?_eq_none]
      intro a ha
      simp only [beq_iff_eq]
      intro hc
      exact h (hc ▸ List.mem_map_of_mem excName ha)
    rw [hfind]
  · intro h200 h204
    simp only [_load_request, recoverJ, pyOpt]
    rw [if_neg h200, if_neg h204]
    rfl

/-- C2 witness: a listed code maps to its class, an unlisted code to the
generic error, and a 403 with such a descriptor raises it. -/
theorem C2_classify_witness :
    classifyCode "NoSuchKey" Json.null = .table .NoSuchKey Json.null ∧
    classifyCode "WeirdCode" Json.null = .admin "WeirdCode" Json.null ∧
    _load_request { status := 403, headers := [],
                    body := some (.obj [("Code", Json.str "WeirdCode")]) } =
      .error (.typed (classifyCode "WeirdCode"
        (.obj [("Code", Json.str "WeirdCode")]))) :=
  ⟨(C2_classify_exact_table "NoSuchKey" Json.null 403 []).1 .NoSuchKey rfl,
   (C2_classify_exact_table "WeirdCode" Json.null 403 []).2.1 (by decide),
   (C2_classify_exact_table "WeirdCode" Json.null 403 []).2.2
     (by decide) (by decide)⟩

/-- When no header key contains an open brace, the header scan finds
nothing. -/
theorem findBraceHeader_eq_none (hs : List (String × String))
    (h : ∀ kv ∈ hs, strHasChar kv.1 '\x7b' = false) :
    findBraceHeader hs = none := by
  induction hs with
  | nil => rfl
  | cons a t ih =>
    obtain ⟨k, v⟩ := a
    unfold findBraceHeader
    rw [h (k, v) (List.mem_cons_self _ _)]
    simpa using ih (fun kv hk => h kv (List.mem_cons_of_mem _ hk))

/-- C3: on a status other than 200 and 204, with an unparseable body and
no header key containing an open brace, `_load_request` raises
ServerDown (with its `None` payload). -/
theorem C3_unrecovered_serverdown (r : Response)
    (h200 : r.status ≠ 200) (h204 : r.status ≠ 204)
    (hbody : r.body = none)
    (hhead : ∀ kv ∈ r.headers, strHasChar kv.1 '\x7b' = false) :
    _load_request r = .error (.typed (.serverDown none)) := by
  have hrec : recoverJ r = .ok none := by
    simp only [recoverJ, hbody, findBraceHeader_eq_none r.headers hhead]
  simp only [_load_request, hrec]
  rw [if_neg h200, if_neg h204]

/-- C3 witness: a 503 with a plain-text error page (unparseable body, no
brace-keyed header) decodes to ServerDown. -/
theorem C3_serverdown_witness :
    _load_request { status := 503
                    headers := [("Content-Type", "text/html")]
                    body := none } =
      .error (.typed (.serverDown none)) :=
  C3_unrecovered_serverdown _ (by decide) (by decide) rfl (by decide)

/-- C4 counterexample: a 500 response with unparseable body and a
brace-keyed header whose reconstructed fragment is itself invalid JSON
(`\x7bA:B\x7d` — unquoted property name). The `json.load` inside the
`except ValueError` handler raises an uncaught decode error, so the call
escapes with a raw parse error, not a typed-taxonomy error. -/
theorem C4_untyped_escape_cex :
    _load_request { status := 500, headers := [("\x7bA", "B")],
                    body := none } =
      .error (.jsonDecodeError "Expecting property name") ∧
    isTypedOutcome
      (_load_request { status := 500, headers := [("\x7bA", "B")],
                       body := none }) = false :=
  ⟨rfl, rfl⟩

/-- C4 amended: every non-success path raises exactly one typed error,
provided the header-fallback fragment (when the fallback fires) parses as
JSON and any recovered non-success payload is a JSON object; when the
fragment is unparseable a raw decode error escapes, and a non-dict
payload escapes as an `AttributeError` from `.get`. -/
theorem C4_typed_errors_amended (r : Response)
    (hfrag : ∀ k v, r.body = none → findBraceHeader r.headers = some (k, v) →
      ∃ j, parseJson (mkFragment k v) = .ok j)
    (hobj : ∀ j, recoverJ r = .ok (some j) → r.status ≠ 200 →
      r.status ≠ 204 → isObjJ j = true) :
    isTypedOutcome (_load_request r) = true := by
  rcases hrec : recoverJ r with m | j
  · exfalso
    unfold recoverJ at hrec
    rcases hb : r.body with _ | v
    · rw [hb] at hrec
      rcases hf : findBraceHeader r.headers with _ | ⟨k, v⟩
      · rw [hf] at hrec
        simp at hrec
      · rw [hf] at hrec
        obtain ⟨j, hj⟩ := hfrag k v hb hf
        simp [hj] at hrec
    · rw [hb] at hrec
      simp at hrec
  · simp only [_load_request, hrec]
    by_cases h200 : r.status = 200
    · rw [if_pos h200]; rfl
    · rw [if_neg h200]
      by_cases h204 : r.status = 204
      · rw [if_pos h204]; rfl
      · rw [if_neg h204]
        rcases j with _ | jv
        · rfl
        · have := hobj jv hrec h200 h204
          rcases jv with _ | b | n | s | xs | kvs <;> simp [isObjJ] at this
          rfl

/-- C4 witness: a 403 whose body parses to a dict descriptor satisfies
both provisos and yields a typed outcome. -/
theorem C4_typed_errors_witness :
    isTypedOutcome
      (_load_request { status := 403, headers := [],
                       body := some (.obj [("Code", Json.str "AccessDenied")]) })
      = true :=
  C4_typed_errors_amended _
    (fun _ _ hb _ => nomatch hb)
    (fun j hj _ _ => by
      have h2 : Except.ok (ε := String)
          (some (Json.obj [("Code", Json.str "AccessDenied")])) =
          Except.ok (some j) := hj
      injection h2 with h3
      obtain rfl := Option.some.inj h3
      rfl)

/-- A left-associated append chain decomposes after its two-part prefix. -/
theorem strTail2 (q a b : String) : ∃ s, q ++ a ++ b = q ++ s :=
  ⟨a ++ b, by rw [String.append_assoc]⟩

/-- Decomposition after a four-part tail. -/
theorem strTail4 (q a b c d : String) :
    ∃ s, q ++ a ++ b ++ c ++ d = q ++ s :=
  ⟨a ++ (b ++ (c ++ d)), by simp [String.append_assoc]⟩

/-- Decomposition after a five-part tail. -/
theorem strTail5 (q a b c d e : String) :
    ∃ s, q ++ a ++ b ++ c ++ d ++ e = q ++ s :=
  ⟨a ++ (b ++ (c ++ (d ++ e))), by simp [String.append_assoc]⟩

/-- Decomposition after a six-part tail. -/
theorem strTail6 (q a b c d e f : String) :
    ∃ s, q ++ a ++ b ++ c ++ d ++ e ++ f = q ++ s :=
  ⟨a ++ (b ++ (c ++ (d ++ (e ++ f)))), by simp [String.append_assoc]⟩

/-- Decomposition after a seven-part tail. -/
theorem strTail7 (q a b c d e f g : String) :
    ∃ s, q ++ a ++ b ++ c ++ d ++ e ++ f ++ g = q ++ s :=
  ⟨a ++ (b ++ (c ++ (d ++ (e ++ (f ++ g))))), by simp [String.append_assoc]⟩

/-- C8 amended: every admin operation builder hands the core request
primitive a request string carrying `format=<response>` as a query
parameter — except the four metadata mutation operations `put_metadata`,
`delete_metadata`, `lock_metadata` and `unlock_metadata`, whose query
strings consist solely of their key/lock parameters and carry no format
parameter. -/
theorem C8_format_param_amended (admin response : String) :
    (∀ (uid access_key : Option String) (stats sync : Bool) spec,
      get_user admin response uid access_key stats sync = .ok spec →
      ∃ s, spec.path = "/" ++ admin ++ "/user?format=" ++ response ++ s) ∧
    (∀ mt key js, mt ∈ metadata_types →
      put_metadata admin mt key js =
        .ok { method := "put"
              path := "/" ++ admin ++ "/metadata/" ++ mt ++ "?" ++
                      ("key=" ++ key)
              headers := [("Content-Type", "application/json")]
              data := some js }) ∧
    (∀ mt key, mt ∈ metadata_types →
      delete_metadata admin mt key =
        .ok { method := "delete"
              path := "/" ++ admin ++ "/metadata/" ++ mt ++ "?" ++
                      ("key=" ++ key)
              headers := [], data := none }) ∧
    (∀ mt key lock_id (length : Int), mt ∈ metadata_types →
      lock_metadata admin mt key lock_id length =
        .ok { method := "post"
              path := "/" ++ admin ++ "/metadata/" ++ mt ++ "?" ++
                      ("lock=lock" ++ "&" ++ ("key=" ++ key) ++ "&" ++
                       ("lock_id=" ++ lock_id) ++ "&" ++
                       ("length=" ++ toString length))
              headers := [], data := none }) ∧
    (∀ mt key lock_id, mt ∈ metadata_types →
      unlock_metadata admin mt key lock_id =
        .ok { method := "post"
              path := "/" ++ admin ++ "/metadata/" ++ mt ++ "?" ++
                      ("unlock=unlock" ++ "&" ++ ("key=" ++ key) ++ "&" ++
                       ("lock_id=" ++ lock_id))
              headers := [], data := none }) ∧
    (∀ mt, mt ∈ metadata_types →
      get_metadata admin response mt none none none =
        .ok { method := "get"
              path := "/" ++ admin ++ "/metadata/" ++ mt ++ "?" ++
                      ("format=" ++ response)
              headers := [], data := none }) ∧
    (∀ uid dn (email kt ak sk uc : Option String) (gk : Bool)
        (mb : Option Int) (susp : Bool),
      ∃ s, (create_user admin response uid dn email kt ak sk uc gk mb
              susp).path = "/" ++ admin ++ "/user?format=" ++ response ++ s) ∧
    (∀ (uid start end_ : Option String) (se ss : Bool),
      ∃ s, (get_usage admin response uid start end_ se ss).path =
        "/" ++ admin ++ "/usage?format=" ++ response ++ s) ∧
    (∀ (uid start end_ : Option String) (ra : Bool),
      ∃ s, (trim_usage admin response uid start end_ ra).path =
        "/" ++ admin ++ "/usage?format=" ++ response ++ s) ∧
    (∀ uid (dn email kt ak sk uc : Option String) (gk : Bool)
        (mb : Option Int) (susp : Option Bool),
      ∃ s, (modify_user admin response uid dn email kt ak sk uc gk mb
              susp).path = "/" ++ admin ++ "/user?format=" ++ response ++ s) ∧
    (∀ uid qt spec, get_quota admin response uid qt = .ok spec →
      ∃ s, spec.path =
        "/" ++ admin ++ "/user?quota&format=" ++ response ++ s) ∧
    (∀ uid qt (mk mo : Option Int) (en : Option Bool) spec,
      set_user_quota admin response uid qt mk mo en = .ok spec →
      ∃ s, spec.path =
        "/" ++ admin ++ "/user?quota&format=" ++ response ++ s) ∧
    (∀ uid bucket (mk mo : Option Int) (en : Option Bool),
      ∃ s, (set_bucket_quota admin response uid bucket mk mo en).path =
        "/" ++ admin ++ "/bucket?quota&format=" ++ response ++ s) ∧
    (∀ uid (pd : Bool),
      ∃ s, (remove_user admin response uid pd).path =
        "/" ++ admin ++ "/user?format=" ++ response ++ s) ∧
    (∀ uid (su sk ak kt ac : Option String) (gs : Bool),
      ∃ s, (create_subuser admin response uid su sk ak kt ac gs).path =
        "/" ++ admin ++ "/user?subuser&format=" ++ response ++ s) ∧
    (∀ uid su (secret : Option String) kt (ac : Option String) (gs : Bool),
      ∃ s, (modify_subuser admin response uid su secret kt ac gs).path =
        "/" ++ admin ++ "/user?subuser&format=" ++ response ++ s) ∧
    (∀ uid su (pk : Bool),
      ∃ s, (remove_subuser admin response uid su pk).path =
        "/" ++ admin ++ "/user?subuser&format=" ++ response ++ s) ∧
    (∀ uid (su : Option String) kt (ak sk : Option String) (gk : Bool),
      ∃ s, (create_key admin response uid su kt ak sk gk).path =
        "/" ++ admin ++ "/user?key&format=" ++ response ++ s) ∧
    (∀ ak (kt uid su : Option String),
      ∃ s, (remove_key admin response ak kt uid su).path =
        "/" ++ admin ++ "/user?key&format=" ++ response ++ s) ∧
    (∀ (bucket uid : Option String) (stats : Bool),
      ∃ s, (get_bucket admin response bucket uid stats).path =
        "/" ++ admin ++ "/bucket?format=" ++ response ++ s) ∧
    (∀ bucket (co fix : Bool),
      ∃ s, (check_bucket_index admin response bucket co fix).path =
        "/" ++ admin ++ "/bucket?index&format=" ++ response ++ s) ∧
    (∀ bucket (po : Bool),
      ∃ s, (remove_bucket admin response bucket po).path =
        "/" ++ admin ++ "/bucket?format=" ++ response ++ s) ∧
    (∀ bucket uid,
      ∃ s, (unlink_bucket admin response bucket uid).path =
        "/" ++ admin ++ "/bucket?format=" ++ response ++ s) ∧
    (∀ bucket bid uid,
      ∃ s, (link_bucket admin response bucket bid uid).path =
        "/" ++ admin ++ "/bucket?format=" ++ response ++ s) ∧
    (∀ bucket obj,
      ∃ s, (remove_object admin response bucket obj).path =
        "/" ++ admin ++ "/bucket?object&format=" ++ response ++ s) ∧
    (∀ bucket (obj : Option String),
      ∃ s, (get_policy admin response bucket obj).path =
        "/" ++ admin ++ "/bucket?policy&format=" ++ response ++ s) ∧
    (∀ uid uc,
      ∃ s, (add_capability admin response uid uc).path =
        "/" ++ admin ++ "/user?caps&format=" ++ response ++ s) ∧
    (∀ uid uc,
      ∃ s, (remove_capability admin response uid uc).path =
        "/" ++ admin ++ "/user?caps&format=" ++ response ++ s) := by
  refine ⟨?_, ?_, ?_, ?_, ?_, ?_, ?_, ?_, ?_, ?_, ?_, ?_, ?_, ?_, ?_, ?_,
    ?_, ?_, ?_, ?_, ?_, ?_, ?_, ?_, ?_, ?_, ?_, ?_⟩
  · intro uid ak stats sync spec h
    unfold get_user at h
    split at h
    · simp at h
    · injection h with h2
      subst h2
      exact strTail6 _ _ _ _ _ _ _
  · intro mt key js hmt
    unfold put_metadata _request_metadata
    rw [if_pos hmt]
    rfl
  · intro mt key hmt
    unfold delete_metadata _request_metadata
    rw [if_pos hmt]
    rfl
  · intro mt key lock_id length hmt
    unfold lock_metadata _request_metadata
    rw [if_pos hmt]
    rfl
  · intro mt key lock_id hmt
    unfold unlock_metadata _request_metadata
    rw [if_pos hmt]
    rfl
  · intro mt hmt
    unfold get_metadata _request_metadata
    rw [if_pos hmt]
    rfl
  · intro uid dn email kt ak sk uc gk mb susp
    exact strTail2 _ _ _
  · intro uid start end_ se ss
    exact strTail7 _ _ _ _ _ _ _ _
  · intro uid start end_ ra
    exact strTail5 _ _ _ _ _ _
  · intro uid dn email kt ak sk uc gk mb susp
    exact strTail2 _ _ _
  · intro uid qt spec h
    unfold get_quota at h
    split at h
    · injection h with h2
      subst h2
      exact strTail2 _ _ _
    · simp at h
  · intro uid qt mk mo en spec h
    unfold set_user_quota at h
    split at h
    · injection h with h2
      subst h2
      exact strTail2 _ _ _
    · simp at h
  · intro uid bucket mk mo en
    exact strTail2 _ _ _
  · intro uid pd
    exact strTail2 _ _ _
  · intro uid su sk ak kt ac gs
    exact strTail2 _ _ _
  · intro uid su secret kt ac gs
    exact strTail2 _ _ _
  · intro uid su pk
    exact strTail2 _ _ _
  · intro uid su kt ak sk gk
    exact strTail2 _ _ _
  · intro ak kt uid su
    exact strTail2 _ _ _
  · intro bucket uid stats
    exact strTail4 _ _ _ _ _
  · intro bucket co fix
    exact strTail2 _ _ _
  · intro bucket po
    exact strTail2 _ _ _
  · intro bucket uid
    exact strTail2 _ _ _
  · intro bucket bid uid
    exact strTail2 _ _ _
  · intro bucket obj
    exact strTail2 _ _ _
  · intro bucket obj
    exact strTail2 _ _ _
  · intro uid uc
    exact strTail2 _ _ _
  · intro uid uc
    exact strTail2 _ _ _

/-- C8 witness: the amended statement applied at concrete inputs — a
`get_user` request carrying `format=json`, and a `put_metadata` request
whose query is just the key parameter. -/
theorem C8_format_param_witness :
    (∃ s, ("/admin/user?format=json&uid=u&stats=False&sync=False" : String) =
      "/" ++ "admin" ++ "/user?format=" ++ "json" ++ s) ∧
    put_metadata "admin" "user" "k" "x" =
      .ok { method := "put"
            path := "/" ++ "admin" ++ "/metadata/" ++ "user" ++ "?" ++
                    ("key=" ++ "k")
            headers := [("Content-Type", "application/json")]
            data := some "x" } :=
  ⟨(C8_format_param_amended "admin" "json").1 (some "u") none false false
      { method := "get"
        path := "/admin/user?format=json&uid=u&stats=False&sync=False"
        headers := [], data := none } rfl,
   (C8_format_param_amended "admin" "json").2.1 "user" "k" "x" (by decide)⟩
